import Mathlib

/-!
Verification of the garmin-workouts repository: a shallow embedding of the
workout domain model (`src/api/models.py`), the swim workout builder
(`src/swim_workout.py`), the wire-format converters and record store
(`src/api/services/workout_service.py`), and the upload route
(`src/api/routes/garmin.py`), together with proofs settling the frozen
claims about them.

Conventions of the embedding:
* Python `int` fields constrained nonnegative by pydantic (`Field(ge=0)`)
  become `Nat`; unconstrained ints become `Int`.
* Python `float` values become `ℚ` (they are only stored, compared and
  truncated; where a float multiplication occurs — the builder's
  `int(distance_m * 1.2)` — the rational model is noted at the definition).
* Fallible Python code (pydantic validation errors, `IntEnum` value errors)
  becomes `Except String _`.
* Wire dictionaries become records of `Option` fields: `none` models an
  absent key, mirroring each `dict.get(key, default)` at its read site.
-/

/-- `StrokeType(IntEnum)` from src/api/models.py (identical codes to
`Stroke` in src/swim_workout.py; the two enums are merged here). -/
inductive StrokeType where
  | ANY
  | BACKSTROKE
  | BREASTSTROKE
  | BUTTERFLY
  | FREESTYLE
  | MIXED
  | IM
deriving DecidableEq, Repr

/-- Integer code of a stroke (the `IntEnum` value). -/
def StrokeType.val : StrokeType → Int
  | .ANY => 1
  | .BACKSTROKE => 2
  | .BREASTSTROKE => 3
  | .BUTTERFLY => 4
  | .FREESTYLE => 5
  | .MIXED => 6
  | .IM => 7

/-- `StrokeType(i)` — the IntEnum constructor: defined exactly on codes 1–7. -/
def strokeOfId : Int → Option StrokeType
  | 1 => some .ANY
  | 2 => some .BACKSTROKE
  | 3 => some .BREASTSTROKE
  | 4 => some .BUTTERFLY
  | 5 => some .FREESTYLE
  | 6 => some .MIXED
  | 7 => some .IM
  | _ => none

/-- `StepType(IntEnum)` from src/api/models.py (codes 1–6). -/
inductive StepType where
  | WARMUP
  | COOLDOWN
  | INTERVAL
  | RECOVERY
  | REST
  | REPEAT
deriving DecidableEq, Repr

/-- Integer code of a step type (the `IntEnum` value). -/
def StepType.val : StepType → Int
  | .WARMUP => 1
  | .COOLDOWN => 2
  | .INTERVAL => 3
  | .RECOVERY => 4
  | .REST => 5
  | .REPEAT => 6

/-- `StepType(i)` — the IntEnum constructor: defined exactly on codes 1–6. -/
def stepTypeOfId : Int → Option StepType
  | 1 => some .WARMUP
  | 2 => some .COOLDOWN
  | 3 => some .INTERVAL
  | 4 => some .RECOVERY
  | 5 => some .REST
  | 6 => some .REPEAT
  | _ => none

/-- `Equipment` model: five independent boolean flags. -/
structure Equipment where
  pull_buoy : Bool := false
  paddles : Bool := false
  fins : Bool := false
  kickboard : Bool := false
  snorkel : Bool := false
deriving DecidableEq, Repr

/-- `WorkoutStep` model (a leaf step). `distance_m` is `Nat` because of
pydantic `Field(ge=0)`; `duration_seconds` and `zone` are unvalidated here —
the pydantic range check on `zone` (1–5) is modelled at each construction
site that performs validation. -/
structure WorkoutStep where
  id : String
  step_type : StepType
  stroke : StrokeType := .FREESTYLE
  distance_m : Nat := 100
  duration_seconds : Option Int := none
  zone : Option Int := none
  description : Option String := none
  equipment : Equipment := {}
deriving DecidableEq, Repr

/-- `RepeatGroup` model. Its `steps` field is `list[WorkoutStep]` in the
source — children are leaf steps only; `iterations` carries pydantic
`Field(ge=1)`, modelled as `Nat` plus an explicit `≥ 1` check at validated
construction sites. -/
structure RepeatGroup where
  id : String
  step_type : StepType := .REPEAT
  iterations : Nat := 1
  steps : List WorkoutStep := []
deriving DecidableEq, Repr

/-- A top-level workout entry: `WorkoutStep | RepeatGroup`. -/
inductive WorkoutEntry where
  | step : WorkoutStep → WorkoutEntry
  | group : RepeatGroup → WorkoutEntry
deriving DecidableEq, Repr

/-- `Workout` model. `pool_length` (a Python float) is a rational. -/
structure Workout where
  id : String
  name : String
  pool_length : ℚ := 25
  steps : List WorkoutEntry := []
deriving DecidableEq, Repr

/-- `Workout.total_distance` — the property from src/api/models.py lines
64–74, transcribed loop for loop: a `RepeatGroup` contributes the plain sum
of its children's `distance_m` times its iterations; a leaf contributes its
`distance_m` unless its type is REST. -/
def Workout.total_distance (w : Workout) : Nat :=
  w.steps.foldl
    (fun total e =>
      match e with
      | .group g =>
          total + (g.steps.foldl (fun acc s => acc + s.distance_m) 0) * g.iterations
      | .step s =>
          if s.step_type ≠ StepType.REST then total + s.distance_m else total)
    0

/-- The distance contribution of a leaf step as the C1 claim words it:
a REST step contributes 0, any other step its `distance_m`. -/
def stepClaimDistance (s : WorkoutStep) : Nat :=
  if s.step_type = StepType.REST then 0 else s.distance_m

/-- Total distance as the C1 claim words it (spec-side definition, for
comparison with the source-side `Workout.total_distance`): a RepeatGroup
contributes the sum of its children's distances under the same
REST-excluding rule, times its iteration count. -/
def total_distance_claimed (w : Workout) : Nat :=
  (w.steps.map
    (fun e =>
      match e with
      | .step s => stepClaimDistance s
      | .group g => (g.steps.map stepClaimDistance).sum * g.iterations)).sum

/-- Total distance as the source actually computes it, in closed sum form
(the C1 amendment): REST exclusion applies only to top-level leaf steps;
inside a RepeatGroup every child's `distance_m` counts, REST included. -/
def total_distance_amended (w : Workout) : Nat :=
  (w.steps.map
    (fun e =>
      match e with
      | .step s => stepClaimDistance s
      | .group g => (g.steps.map (fun s => s.distance_m)).sum * g.iterations)).sum

/-- Python `int(x)` on a number: truncation toward zero (`Int.tdiv`). -/
def pyInt (q : ℚ) : Int := q.num.tdiv q.den

/-- A wire-format workout step as consumed by `garmin_to_workout` and as
produced by the builder. Each field models the corresponding dictionary
read in src/api/services/workout_service.py lines 241–282:
* `stepTypeId`: `g_step.get("stepType", {}).get("stepTypeId", 3)` — `none`
  models a missing `stepType` dict or missing `stepTypeId` key;
* `strokeTypeId`: `stroke_type.get("strokeTypeId", 5) if stroke_type else 5`
  — `none` models a missing or empty `strokeType` dict or a missing key
  (all three read as the default 5);
* `conditionTypeKey`: `g_step.get("endCondition", {}).get("conditionTypeKey",
  "distance")` — `none` models a missing dict or key;
* `endConditionValue`: `g_step.get("endConditionValue", 100)`;
* `numberOfIterations`: `g_step.get("numberOfIterations", 1)`;
* `workoutSteps`: `g_step.get("workoutSteps", [])` (missing key = `[]`);
* `zoneNumber`: `g_step.get("zoneNumber")`;
* `description`: `g_step.get("description")`.
Constant metadata written by the builder but never read back
(`stepOrder`, `displayOrder`, `conditionTypeId`, `targetType`,
`preferredEndConditionUnit`, `smartRepeat`) is not modelled. -/
inductive GarminStep where
  | mk
      (stepTypeId : Option Int)
      (strokeTypeId : Option Int)
      (conditionTypeKey : Option String)
      (endConditionValue : Option ℚ)
      (numberOfIterations : Option Int)
      (workoutSteps : List GarminStep)
      (zoneNumber : Option Int)
      (description : Option String)

/-- One wire-format workout segment (`workoutSegments` entry). -/
structure GarminSegment where
  workoutSteps : List GarminStep

/-- A wire-format workout object: the fields of the builder's
`SwimmingWorkout` output and the keys read by `garmin_to_workout`
(`workoutId` is absent on upload, present on download; `sportType`,
`poolLengthUnit` are constant metadata, not modelled). -/
structure GarminWorkout where
  workoutId : Option String := none
  workoutName : Option String := none
  poolLength : Option ℚ := none
  estimatedDurationInSecs : Int := 0
  workoutSegments : List GarminSegment := []

/-- If every converted child is a leaf `WorkoutStep`, return them; a nested
`RepeatGroup` child makes pydantic validation of `RepeatGroup.steps :
list[WorkoutStep]` fail (src/api/models.py line 54). -/
def leavesOnly : List WorkoutEntry → Option (List WorkoutStep)
  | [] => some []
  | .step s :: rest =>
      match leavesOnly rest with
      | some l => some (s :: l)
      | none => none
  | .group _ :: _ => none

/-- The non-repeat (leaf) branch of `convert_garmin_step`
(src/api/services/workout_service.py lines 259–282), factored out with the
already-defaulted `step_type_id` and the raw remaining wire fields.
Pydantic field validation (`distance_m ≥ 0`, `zone ∈ [1,5]`) and the
`IntEnum` constructor calls become `Except.error`, as the Python
exceptions. -/
def convertGarminLeaf (step_type_id : Int) (strokeTypeId : Option Int)
    (conditionTypeKey : Option String) (endConditionValue : Option ℚ)
    (zoneNumber : Option Int) (descr : Option String) (step_id : String) :
    Except String WorkoutStep :=
  let stroke_id0 := strokeTypeId.getD 5
  -- Handle invalid stroke IDs (0 or out of range) - default to freestyle
  let stroke_id := if stroke_id0 < 1 ∨ stroke_id0 > 7 then 5 else stroke_id0
  -- Handle invalid step type IDs - default to interval
  let st_id := if step_type_id < 1 ∨ step_type_id > 6 then 3 else step_type_id
  let end_condition := conditionTypeKey.getD "distance"
  let end_value := endConditionValue.getD 100
  match strokeOfId stroke_id, stepTypeOfId st_id with
  | some stroke, some sty =>
    let dist : Int := if end_condition = "distance" then pyInt end_value else 0
    let dur : Option Int :=
      if end_condition = "time" ∨ end_condition = "fixed.rest"
        then some (pyInt end_value) else none
    if dist < 0 then
      .error "WorkoutStep.distance_m: greater than or equal to 0"
    else
      match zoneNumber with
      | some z =>
          if z < 1 ∨ z > 5 then
            .error "WorkoutStep.zone: out of range"
          else
            .ok ⟨step_id, sty, stroke, dist.toNat, dur, some z, descr, {}⟩
      | none =>
          .ok ⟨step_id, sty, stroke, dist.toNat, dur, none, descr, {}⟩
  | _, _ => .error "invalid IntEnum code"

mutual
/-- `convert_garmin_step` from src/api/services/workout_service.py lines
241–282, threading the shared `step_counter` explicitly. A step whose
(defaulted) `stepTypeId` is the REPEAT code 6 becomes a `RepeatGroup`
(pydantic validation of `iterations ≥ 1` and of leaf-only children becomes
`Except.error`); anything else goes through `convertGarminLeaf`. -/
def convertGarminStep (g : GarminStep) (counter : Nat) :
    Except String (WorkoutEntry × Nat) :=
  match g with
  | .mk stepTypeId strokeTypeId conditionTypeKey endConditionValue
      numberOfIterations workoutSteps zoneNumber descr =>
    let c := counter + 1
    let step_id := "step-" ++ toString c
    let step_type_id := stepTypeId.getD 3
    if step_type_id = 6 then
      -- REPEAT: recursively convert the nested step list
      match convertGarminSteps workoutSteps c with
      | .error e => .error e
      | .ok (inner, c2) =>
        match leavesOnly inner with
        | none => .error "RepeatGroup.steps: value is not a valid WorkoutStep"
        | some leaves =>
          let iters := numberOfIterations.getD 1
          if iters < 1 then
            .error "RepeatGroup.iterations: greater than or equal to 1"
          else
            .ok (.group ⟨step_id, .REPEAT, iters.toNat, leaves⟩, c2)
    else
      match convertGarminLeaf step_type_id strokeTypeId conditionTypeKey
          endConditionValue zoneNumber descr step_id with
      | .error e => .error e
      | .ok s => .ok (.step s, c)

/-- Conversion of a wire step list in order, threading the counter. -/
def convertGarminSteps (l : List GarminStep) (counter : Nat) :
    Except String (List WorkoutEntry × Nat) :=
  match l with
  | [] => .ok ([], counter)
  | g :: rest =>
    match convertGarminStep g counter with
    | .error e => .error e
    | .ok (e, c1) =>
      match convertGarminSteps rest c1 with
      | .error err => .error err
      | .ok (es, c2) => .ok (e :: es, c2)
end

/-- `garmin_to_workout` from src/api/services/workout_service.py lines
227–292: defaults for missing `workoutId` / `workoutName` / `poolLength`,
steps taken from the first segment only (no segment at all means no steps). -/
def garmin_to_workout (gw : GarminWorkout) : Except String Workout :=
  let workout_id := gw.workoutId.getD ""
  let name := gw.workoutName.getD "Unnamed Workout"
  let pool_length := gw.poolLength.getD 25
  match gw.workoutSegments with
  | [] => .ok ⟨workout_id, name, pool_length, []⟩
  | seg :: _ =>
    match convertGarminSteps seg.workoutSteps 0 with
    | .error e => .error e
    | .ok (entries, _) => .ok ⟨workout_id, name, pool_length, entries⟩

/-- `SwimWorkoutBuilder._estimate_swim_time`: Python computes
`int(distance_m * 1.2)` in IEEE-double arithmetic. The double nearest 1.2
is 1.2 − δ with 0 < δ < 2⁻⁵², and for every distance appearing in this
development (integers well below 2⁵⁰) the rounded product truncates to the
same integer as the exact rational 6·d/5, which is the model used here. -/
def estimate_swim_time (distance_m : Nat) : Nat := 6 * distance_m / 5

/-- Builder state from src/swim_workout.py: accumulated wire steps, the
step-order counter and the running duration estimate (`stepOrder` values
are written but never read back by any converter, so only the counter is
kept). -/
structure SwimWorkoutBuilder where
  name : String
  pool_length : ℚ
  steps : List GarminStep
  step_order : Nat
  estimated_duration : Int

/-- `SwimWorkoutBuilder.__init__` / `create_swim_workout`: the name is
truncated to 80 characters. -/
def SwimWorkoutBuilder.init (name : String) (pool_length : ℚ) : SwimWorkoutBuilder :=
  ⟨name.take 80, pool_length, [], 0, 0⟩

/-- `SwimWorkoutBuilder.warmup`: append a WARMUP step with a distance end
condition; duration estimate grows by the 1.2×distance rule. -/
def SwimWorkoutBuilder.warmup (b : SwimWorkoutBuilder) (distance_m : Nat)
    (stroke : StrokeType) (description : Option String) : SwimWorkoutBuilder :=
  { b with
    estimated_duration := b.estimated_duration + estimate_swim_time distance_m,
    step_order := b.step_order + 1,
    steps := b.steps ++
      [.mk (some 1) (some stroke.val) (some "distance") (some (distance_m : ℚ))
        none [] none description] }

/-- `SwimWorkoutBuilder.cooldown`: same contract as `warmup`, type code 2. -/
def SwimWorkoutBuilder.cooldown (b : SwimWorkoutBuilder) (distance_m : Nat)
    (stroke : StrokeType) (description : Option String) : SwimWorkoutBuilder :=
  { b with
    estimated_duration := b.estimated_duration + estimate_swim_time distance_m,
    step_order := b.step_order + 1,
    steps := b.steps ++
      [.mk (some 2) (some stroke.val) (some "distance") (some (distance_m : ℚ))
        none [] none description] }

/-- `SwimWorkoutBuilder.swim`: append an INTERVAL step; `zoneNumber` is
attached only when `zone` is truthy (Python `if zone`: not `None`, not 0). -/
def SwimWorkoutBuilder.swim (b : SwimWorkoutBuilder) (distance_m : Nat)
    (stroke : StrokeType) (zone : Option Int) (description : Option String) :
    SwimWorkoutBuilder :=
  let zoneNumber : Option Int :=
    match zone with
    | some z => if z ≠ 0 then some z else none
    | none => none
  { b with
    estimated_duration := b.estimated_duration + estimate_swim_time distance_m,
    step_order := b.step_order + 1,
    steps := b.steps ++
      [.mk (some 3) (some stroke.val) (some "distance") (some (distance_m : ℚ))
        none [] zoneNumber description] }

/-- `SwimWorkoutBuilder.rest`: append a REST step with a `fixed.rest` end
condition (no `strokeType` is written); duration grows by `seconds`
exactly. -/
def SwimWorkoutBuilder.rest (b : SwimWorkoutBuilder) (seconds : Int)
    (description : Option String) : SwimWorkoutBuilder :=
  { b with
    estimated_duration := b.estimated_duration + seconds,
    step_order := b.step_order + 1,
    steps := b.steps ++
      [.mk (some 5) none (some "fixed.rest") (some (seconds : ℚ))
        none [] none description] }

/-- `SwimWorkoutBuilder.rest_until_button`: REST step with a `lap.button`
end condition, no `endConditionValue`; duration grows by the fixed 30 s
placeholder. -/
def SwimWorkoutBuilder.rest_until_button (b : SwimWorkoutBuilder)
    (description : Option String) : SwimWorkoutBuilder :=
  { b with
    estimated_duration := b.estimated_duration + 30,
    step_order := b.step_order + 1,
    steps := b.steps ++
      [.mk (some 5) none (some "lap.button") none none [] none description] }

/-- `SwimWorkoutBuilder.repeat`: run `fn` on a fresh builder with the same
name and pool length and a reset counter, then append one REPEAT wire step
holding the inner steps; the outer duration grows by
`times × inner.estimated_duration`. -/
def SwimWorkoutBuilder.repeat (b : SwimWorkoutBuilder) (times : Nat)
    (fn : SwimWorkoutBuilder → SwimWorkoutBuilder) : SwimWorkoutBuilder :=
  let inner := fn (SwimWorkoutBuilder.init b.name b.pool_length)
  { b with
    estimated_duration := b.estimated_duration + inner.estimated_duration * times,
    step_order := b.step_order + 1,
    steps := b.steps ++
      [.mk (some 6) none (some "iterations") (some (times : ℚ))
        (some (times : Int)) inner.steps none none] }

/-- `SwimWorkoutBuilder.build`: one segment carrying all accumulated steps,
plus name, pool length and the duration estimate. -/
def SwimWorkoutBuilder.build (b : SwimWorkoutBuilder) : GarminWorkout :=
  { workoutId := none,
    workoutName := some b.name,
    poolLength := some b.pool_length,
    estimatedDurationInSecs := b.estimated_duration,
    workoutSegments := [⟨b.steps⟩] }

/-- The equipment labels emitted by `workout_to_garmin_dict`, in the fixed
source order. -/
def equipmentParts (eq : Equipment) : List String :=
  (if eq.pull_buoy then ["PULL BUOY"] else []) ++
  (if eq.paddles then ["PADDLES"] else []) ++
  (if eq.fins then ["FINS"] else []) ++
  (if eq.kickboard then ["KICKBOARD"] else []) ++
  (if eq.snorkel then ["SNORKEL"] else [])

/-- The description actually sent to the builder by `add_step`: equipment
flags folded into a bracketed prefix; a `None` or empty original
description (Python falsy) yields the bracket tag alone. -/
def descWithEquipment (step : WorkoutStep) : Option String :=
  match equipmentParts step.equipment with
  | [] => step.description
  | parts =>
    let eq_str := String.intercalate " + " parts
    match step.description with
    | some d =>
        if d ≠ "" then some ("[" ++ eq_str ++ "] " ++ d)
        else some ("[" ++ eq_str ++ "]")
    | none => some ("[" ++ eq_str ++ "]")

/-- Python `step.duration_seconds or 30`: `None` and 0 are falsy. -/
def durationOr30 (d : Option Int) : Int :=
  match d with
  | some v => if v ≠ 0 then v else 30
  | none => 30

/-- `add_step` from `workout_to_garmin_dict`: dispatch a leaf domain step
to the matching builder call (`stroke_map.get(step.stroke, FREESTYLE)` is
the identity on all seven members, so the stroke passes through). -/
def add_step (b : SwimWorkoutBuilder) (step : WorkoutStep) : SwimWorkoutBuilder :=
  let desc := descWithEquipment step
  match step.step_type with
  | .WARMUP => b.warmup step.distance_m step.stroke desc
  | .COOLDOWN => b.cooldown step.distance_m step.stroke desc
  | .REST => b.rest (durationOr30 step.duration_seconds) desc
  | _ => b.swim step.distance_m step.stroke step.zone desc

/-- `workout_to_garmin_dict` from src/api/services/workout_service.py lines
309–372: feed every top-level entry into a fresh builder (a `RepeatGroup`
through `builder.repeat` with a callback adding its children) and build. -/
def workout_to_garmin_dict (w : Workout) : GarminWorkout :=
  let builder := SwimWorkoutBuilder.init w.name w.pool_length
  let builder := w.steps.foldl
    (fun b e =>
      match e with
      | .group g => b.repeat g.iterations (fun inner => g.steps.foldl add_step inner)
      | .step s => add_step b s)
    builder
  builder.build

/-- The record store (`~/.garmin_workouts/<id>.json`): a partial map from
ids to stored workout documents. -/
def Store := String → Option Workout

/-- `get_workout`: read the record at `workout_id`, if present. -/
def Store.get_workout (s : Store) (workout_id : String) : Option Workout :=
  s workout_id

/-- `path.write_text(...)` at the path of `workout_id`. -/
def Store.put (s : Store) (workout_id : String) (w : Workout) : Store :=
  fun k => if k = workout_id then some w else s k

/-- `path.unlink()` at the path of `workout_id`. -/
def Store.erase (s : Store) (workout_id : String) : Store :=
  fun k => if k = workout_id then none else s k

/-- `replace_workout_id` from src/api/services/workout_service.py lines
128–147: load the record at `old_id` (failure if absent), rewrite its id
field, write it under `new_id`, then delete the file at `old_id` if one
exists. Returns the Python function's boolean and the resulting store. -/
def replace_workout_id (s : Store) (old_id new_id : String) : Bool × Store :=
  match s.get_workout old_id with
  | none => (false, s)
  | some workout =>
    -- Update the ID
    let workout := { workout with id := new_id }
    -- Save with new ID
    let s1 := s.put new_id workout
    -- Delete old file (guarded by old_path.exists())
    let s2 := if (s1.get_workout old_id).isSome then s1.erase old_id else s1
    (true, s2)

/-- `UploadResult` model from src/api/models.py. -/
structure UploadResult where
  success : Bool
  workout_id : Option String := none
  error : Option String := none
deriving DecidableEq, Repr

/-- A remote (Garmin) call made by the upload route, in order. -/
inductive RemoteCall where
  | uploadCall
  | deleteOldCall (workout_id : String)
deriving DecidableEq, Repr

/-- Outcomes of the external collaborators during one run of the upload
route: what `garmin_service.upload_workout` returns, and whether
`garmin_service.delete_workout_from_garmin` reports success
(that function catches every exception internally and returns a boolean,
so it never raises into the route). -/
structure RemoteEnv where
  uploadResult : UploadResult
  deleteOk : Bool
deriving DecidableEq, Repr

/-- The HTTP-level outcome of the upload route. -/
inductive UploadResponse where
  | notFound
  | conversionError (msg : String)
  | uploadFailed (err : Option String)
  | ok (result : UploadResult)
deriving DecidableEq, Repr

/-- `upload_workout` from src/api/routes/garmin.py lines 32–66, with its
fallible collaborators abstracted by their outcomes: `conv` is the result
of the `try` around `workout_to_garmin_dict` (an exception there becomes
the 400 conversion error), `env` the remote collaborator's behaviour.
Returns the response, the final local store, and the remote calls made in
order. -/
def upload_workout_route (store : Store) (workout_id : String)
    (conv : Except String GarminWorkout) (env : RemoteEnv) :
    UploadResponse × Store × List RemoteCall :=
  match store.get_workout workout_id with
  | none => (.notFound, store, [])
  | some _workout =>
    let old_garmin_id := workout_id
    match conv with
    | .error e => (.conversionError e, store, [])
    | .ok _garmin_workout =>
      let result := env.uploadResult
      if result.success = false then
        (.uploadFailed result.error, store, [.uploadCall])
      else
        match result.workout_id with
        | some new_id =>
          -- `if old_garmin_id and result.workout_id and old_garmin_id != result.workout_id`
          if old_garmin_id ≠ "" ∧ new_id ≠ "" ∧ old_garmin_id ≠ new_id then
            -- delete old remote record; its boolean result is discarded
            let _delete_ok := env.deleteOk
            let swapped := replace_workout_id store old_garmin_id new_id
            (.ok result, swapped.2, [.uploadCall, .deleteOldCall old_garmin_id])
          else
            (.ok result, store, [.uploadCall])
        | none => (.ok result, store, [.uploadCall])

/-- Workout entries as §3 of the spec describes them, for comparison with
the source model: each child of a repeat group is again an entry — a Step
or a nested RepeatGroup, to arbitrary depth. -/
inductive SpecEntry where
  | step : WorkoutStep → SpecEntry
  | group : Nat → List SpecEntry → SpecEntry

/-- Whether a spec-side entry is a repeat group. -/
def SpecEntry.isGroup : SpecEntry → Bool
  | .step _ => false
  | .group _ _ => true

/-- The children of a spec-side entry (empty for a leaf). -/
def SpecEntry.children : SpecEntry → List SpecEntry
  | .step _ => []
  | .group _ cs => cs

/-- A spec-side entry that is a group with a group among its children. -/
def SpecEntry.hasNestedGroup (e : SpecEntry) : Bool :=
  e.children.any SpecEntry.isGroup

/-- The (only possible) reading of a source workout entry as a spec entry:
a source `RepeatGroup`'s children all come from `steps : List WorkoutStep`,
so each maps to a leaf. -/
def WorkoutEntry.toSpecEntry : WorkoutEntry → SpecEntry
  | .step s => .step s
  | .group g => .group g.iterations (g.steps.map SpecEntry.step)

/-- Whether a source workout, read as spec entries, exhibits a repeat
group nested inside a repeat group. -/
def Workout.hasNestedRepeatGroup (w : Workout) : Bool :=
  (w.steps.map WorkoutEntry.toSpecEntry).any SpecEntry.hasNestedGroup

/-- The projection of a leaf step that claim C2 talks about: kind, stroke,
and the distance/duration values. -/
structure LeafShape where
  kind : StepType
  stroke : StrokeType
  distance : Nat
  duration : Option Int
deriving DecidableEq, Repr

/-- The C2 projection of a workout entry: a leaf's shape, or a group's
iteration count and children shapes. -/
inductive EntryShape where
  | leaf : LeafShape → EntryShape
  | group : Nat → List LeafShape → EntryShape
deriving DecidableEq, Repr

/-- Shape of a leaf step. -/
def WorkoutStep.shape (s : WorkoutStep) : LeafShape :=
  ⟨s.step_type, s.stroke, s.distance_m, s.duration_seconds⟩

/-- Shape of a workout entry. -/
def WorkoutEntry.shape : WorkoutEntry → EntryShape
  | .step s => .leaf s.shape
  | .group g => .group g.iterations (g.steps.map WorkoutStep.shape)

/-- Shape of a whole workout's step list. -/
def Workout.shape (w : Workout) : List EntryShape :=
  w.steps.map WorkoutEntry.shape

/-- What one Domain → Wire → Domain round trip actually does to a leaf
step's shape (the C2 amendment): WARMUP, COOLDOWN and INTERVAL keep kind,
stroke and distance and come back with no duration; REST keeps its kind
but comes back with FREESTYLE stroke, distance 0 and duration
`duration_seconds or 30`; every other kind (RECOVERY, or a leaf carrying
the REPEAT code) comes back as INTERVAL with stroke and distance kept. -/
def roundtripLeafShape (s : WorkoutStep) : LeafShape :=
  match s.step_type with
  | .WARMUP => ⟨.WARMUP, s.stroke, s.distance_m, none⟩
  | .COOLDOWN => ⟨.COOLDOWN, s.stroke, s.distance_m, none⟩
  | .REST => ⟨.REST, .FREESTYLE, 0, some (durationOr30 s.duration_seconds)⟩
  | _ => ⟨.INTERVAL, s.stroke, s.distance_m, none⟩

/-- Round-trip effect on an entry's shape: groups keep their iteration
count and structure, children transform as leaves do. -/
def roundtripEntryShape : WorkoutEntry → EntryShape
  | .step s => .leaf (roundtripLeafShape s)
  | .group g => .group g.iterations (g.steps.map roundtripLeafShape)

/-- The pydantic constraint on a stored leaf step that matters to the
round trip: `zone` is either absent or in `[1, 5]` (`Field(ge=1, le=5)`). -/
def WorkoutStep.zoneOk (s : WorkoutStep) : Bool :=
  match s.zone with
  | some z => decide (1 ≤ z ∧ z ≤ 5)
  | none => true

/-- The pydantic invariants of a stored entry that the round-trip theorem
needs: each leaf's zone constraint, and `iterations ≥ 1` (`Field(ge=1)`)
for a group. -/
def WorkoutEntry.wf : WorkoutEntry → Bool
  | .step s => s.zoneOk
  | .group g => decide (1 ≤ g.iterations) && g.steps.all WorkoutStep.zoneOk

/-- The pydantic invariants of a stored `Workout`, entry by entry. -/
def Workout.wellFormed (w : Workout) : Bool :=
  w.steps.all WorkoutEntry.wf

/-- The wire step `add_step` makes the builder emit for a leaf domain step
(description with equipment folded in; REST carries no stroke and a
`fixed.rest` condition of `duration_seconds or 30`; WARMUP/COOLDOWN keep
their codes; everything else is emitted as a `swim`, code 3). -/
def emitLeaf (s : WorkoutStep) : GarminStep :=
  match s.step_type with
  | .WARMUP =>
      .mk (some 1) (some s.stroke.val) (some "distance") (some (s.distance_m : ℚ))
        none [] none (descWithEquipment s)
  | .COOLDOWN =>
      .mk (some 2) (some s.stroke.val) (some "distance") (some (s.distance_m : ℚ))
        none [] none (descWithEquipment s)
  | .REST =>
      .mk (some 5) none (some "fixed.rest")
        (some ((durationOr30 s.duration_seconds : Int) : ℚ))
        none [] none (descWithEquipment s)
  | _ =>
      .mk (some 3) (some s.stroke.val) (some "distance") (some (s.distance_m : ℚ))
        none []
        (match s.zone with
          | some z => if z ≠ 0 then some z else none
          | none => none)
        (descWithEquipment s)

/-- The wire step `workout_to_garmin_dict` emits for a top-level entry. -/
def emitEntry : WorkoutEntry → GarminStep
  | .step s => emitLeaf s
  | .group g =>
      .mk (some 6) none (some "iterations") (some (g.iterations : ℚ))
        (some (g.iterations : Int)) (g.steps.map emitLeaf) none none

/-! Concrete instances used by claim theorems, counterexamples and
witnesses. -/

/-- A REST leaf step that still carries the default 100 m distance. -/
def restChild : WorkoutStep := ⟨"r1", .REST, .FREESTYLE, 100, some 20, none, none, {}⟩

/-- A workout whose only entry is a repeat group around `restChild`. -/
def c1Workout : Workout :=
  ⟨"w1", "Distance", 25, [.group ⟨"g1", .REPEAT, 2, [restChild]⟩]⟩

/-- A workout whose only entry is a RECOVERY leaf step. -/
def c2Recovery : Workout :=
  ⟨"w2", "Recover", 25, [.step ⟨"s1", .RECOVERY, .BACKSTROKE, 100, none, none, none, {}⟩]⟩

/-- A small well-formed workout exercising a warmup and a repeat group. -/
def c2Sample : Workout :=
  ⟨"w3", "Sample", 25,
    [.step ⟨"s1", .WARMUP, .FREESTYLE, 300, none, none, none, {}⟩,
     .group ⟨"g1", .REPEAT, 4,
       [⟨"s2", .INTERVAL, .FREESTYLE, 100, none, some 2, none, {}⟩,
        ⟨"s3", .REST, .FREESTYLE, 100, some 20, none, none, {}⟩]⟩]⟩

/-- The rational 150.9, built in lowest terms. -/
def q1509 : ℚ := ⟨1509, 10, by decide, by decide⟩

/-- A wire leaf step whose distance end condition carries the value 150.9. -/
def c4WireStep : GarminStep :=
  .mk (some 3) (some 5) (some "distance") (some q1509) none [] none none

/-- A wire leaf step with out-of-range stroke code 0 and step-type code 9. -/
def c5WireStep : GarminStep :=
  .mk (some 9) (some 0) (some "distance") (some ((100 : Nat) : ℚ)) none [] none none

/-- A wire leaf step with a `time` end condition and no
`endConditionValue` key. -/
def c10WireStep : GarminStep :=
  .mk (some 3) (some 5) (some "time") none none [] none none

/-- The C8 builder scenario:
`create("Test").warmup(300, FREESTYLE).repeat(4,
b => b.swim(100, FREESTYLE, zone=2).rest(20)).cooldown(200, FREESTYLE).build()`. -/
def c8Built : GarminWorkout :=
  ((((SwimWorkoutBuilder.init "Test" 25).warmup 300 .FREESTYLE none).repeat 4
      (fun b => (b.swim 100 .FREESTYLE (some 2) none).rest 20 none)).cooldown
    200 .FREESTYLE none).build

/-- A stored workout record under id "old-1". -/
def c6Workout : Workout :=
  ⟨"old-1", "Morning Swim", 25, [.step ⟨"s1", .WARMUP, .FREESTYLE, 200, none, none, none, {}⟩]⟩

/-- A store holding exactly the record "old-1". -/
def c6Store : Store :=
  fun k => if k = "old-1" then some c6Workout else none

/-! Theorems. -/

/-- Folding distances with an accumulator is the accumulator plus the sum. -/
theorem foldl_distance_eq_sum (l : List WorkoutStep) (n : Nat) :
    l.foldl (fun acc s => acc + s.distance_m) n =
      n + (l.map (fun s => s.distance_m)).sum := by
  induction l generalizing n with
  | nil => simp
  | cons hd tl ih => simp [List.foldl_cons, ih, Nat.add_assoc]

/-- The `total_distance` loop equals the closed sum form, with a general
accumulator. -/
theorem total_distance_foldl_eq (l : List WorkoutEntry) (n : Nat) :
    l.foldl
      (fun total e =>
        match e with
        | .group g =>
            total + (g.steps.foldl (fun acc s => acc + s.distance_m) 0) * g.iterations
        | .step s =>
            if s.step_type ≠ StepType.REST then total + s.distance_m else total)
      n =
    n + (l.map
      (fun e =>
        match e with
        | .step s => stepClaimDistance s
        | .group g => (g.steps.map (fun s => s.distance_m)).sum * g.iterations)).sum := by
  induction l generalizing n with
  | nil => simp
  | cons e tl ih =>
    cases e with
    | step s =>
      simp only [List.foldl_cons, List.map_cons, List.sum_cons, ih]
      by_cases h : s.step_type = StepType.REST <;>
        simp [stepClaimDistance, h, Nat.add_assoc]
    | group g =>
      rw [List.foldl_cons, ih]
      simp only [List.map_cons, List.sum_cons, foldl_distance_eq_sum]
      simp [Nat.add_assoc]

/-- C1 (counterexample): on a workout whose repeat group holds a REST step
with 100 m distance and 2 iterations, the code computes 200 while the
claim's REST-excluding recursive rule yields 0. -/
theorem C1_counterexample :
    c1Workout.total_distance = 200 ∧
    total_distance_claimed c1Workout = 0 ∧
    c1Workout.total_distance ≠ total_distance_claimed c1Workout := by
  refine ⟨rfl, rfl, ?_⟩
  decide

/-- C1 (amended): `total_distance` sums top-level entries where a leaf
contributes its distance unless its kind is REST, and a `RepeatGroup`
contributes the sum of ALL of its children's distances — REST children
included, no exclusion applies inside a group — times its iteration count
(children are leaf steps, so no deeper recursion exists). -/
theorem C1_theorem (w : Workout) :
    w.total_distance = total_distance_amended w := by
  have h := total_distance_foldl_eq w.steps 0
  simpa [Workout.total_distance, total_distance_amended] using h

/-- C3 (counterexample): no workout representable in the domain model
exhibits a repeat group nested inside a repeat group — refuting "for some
well-formed Workout a RepeatGroup contains another RepeatGroup as a child"
(`RepeatGroup.steps` is `list[WorkoutStep]`, models.py line 54). -/
theorem C3_counterexample :
    ¬ ∃ w : Workout, w.hasNestedRepeatGroup = true := by
  rintro ⟨w, hw⟩
  unfold Workout.hasNestedRepeatGroup at hw
  rw [List.any_eq_true] at hw
  obtain ⟨e0, he0, hpred⟩ := hw
  rw [List.mem_map] at he0
  obtain ⟨e, -, rfl⟩ := he0
  cases e with
  | step s =>
    simp [WorkoutEntry.toSpecEntry, SpecEntry.hasNestedGroup,
      SpecEntry.children] at hpred
  | group g =>
    simp [WorkoutEntry.toSpecEntry, SpecEntry.hasNestedGroup,
      SpecEntry.children, List.any_map, Function.comp,
      SpecEntry.isGroup] at hpred

/-- C3 (amended): the domain `RepeatGroup` type permits only leaf `Step`
children — read as spec entries, every child of a repeat-group entry is a
leaf, so nesting is limited to one level and the builder's one-level output
is all the type can hold. -/
theorem C3_theorem (g : RepeatGroup) (c : SpecEntry)
    (hc : c ∈ (WorkoutEntry.toSpecEntry (.group g)).children) :
    c.isGroup = false := by
  simp only [WorkoutEntry.toSpecEntry, SpecEntry.children, List.mem_map] at hc
  obtain ⟨s, -, rfl⟩ := hc
  rfl

/-- Witness for C3: a concrete group's concrete child is a leaf. -/
theorem C3_witness :
    (SpecEntry.step restChild) ∈
      (WorkoutEntry.toSpecEntry (.group ⟨"g1", .REPEAT, 2, [restChild]⟩)).children ∧
    (SpecEntry.step restChild).isGroup = false :=
  ⟨by simp [WorkoutEntry.toSpecEntry, SpecEntry.children],
   C3_theorem ⟨"g1", .REPEAT, 2, [restChild]⟩ (SpecEntry.step restChild)
     (by simp [WorkoutEntry.toSpecEntry, SpecEntry.children])⟩

/-- C8: the scenario chain's built duration estimate is exactly
360 + 4 × (120 + 20) + 240 = 1160 seconds. -/
theorem C8_theorem : c8Built.estimatedDurationInSecs = 1160 := by
  rfl

/-- Successful `replace_workout_id` in closed form: write the re-identified
record under the new key, then remove the old key (the `old_path.exists()`
guard is true because the old record is still there when the ids differ). -/
theorem replace_workout_id_eq (s : Store) (old_id new_id : String) (w : Workout)
    (h : s.get_workout old_id = some w) (hne : old_id ≠ new_id) :
    replace_workout_id s old_id new_id =
      (true, Store.erase (Store.put s new_id { w with id := new_id }) old_id) := by
  unfold replace_workout_id
  rw [h]
  have h1 : (Store.put s new_id { w with id := new_id }).get_workout old_id = some w := by
    simpa [Store.put, Store.get_workout, hne] using h
  simp only [h1, Option.isSome_some, if_true]

/-- C6: when a record exists at `old_id` and the ids differ,
`replace_workout_id` succeeds, the old key reads back as not-found, and the
new key holds the record with only its id field rewritten; when no record
exists at `old_id`, it fails and the store is untouched. -/
theorem C6_theorem (s : Store) (old_id new_id : String) :
    (∀ w : Workout, s.get_workout old_id = some w → old_id ≠ new_id →
      (replace_workout_id s old_id new_id).1 = true ∧
      ((replace_workout_id s old_id new_id).2).get_workout old_id = none ∧
      ((replace_workout_id s old_id new_id).2).get_workout new_id =
        some ⟨new_id, w.name, w.pool_length, w.steps⟩) ∧
    (s.get_workout old_id = none →
      replace_workout_id s old_id new_id = (false, s)) := by
  constructor
  · intro w h hne
    rw [replace_workout_id_eq s old_id new_id w h hne]
    refine ⟨rfl, ?_, ?_⟩
    · simp [Store.erase, Store.get_workout]
    · simp [Store.erase, Store.put, Store.get_workout, Ne.symm hne]
  · intro h
    unfold replace_workout_id
    rw [h]

/-- Witness for C6 at a concrete one-record store. -/
theorem C6_witness :
    Store.get_workout c6Store "old-1" = some c6Workout ∧
    ("old-1" : String) ≠ "new-2" ∧
    ((replace_workout_id c6Store "old-1" "new-2").1 = true ∧
     ((replace_workout_id c6Store "old-1" "new-2").2).get_workout "old-1" = none ∧
     ((replace_workout_id c6Store "old-1" "new-2").2).get_workout "new-2" =
       some ⟨"new-2", c6Workout.name, c6Workout.pool_length, c6Workout.steps⟩) :=
  ⟨rfl, by decide,
   (C6_theorem c6Store "old-1" "new-2").1 c6Workout rfl (by decide)⟩

/-- C9: `replace_workout_id x x` on an existing record reports success but
destroys the record — the file is written under `x` and then the same path
is unlinked, so `get(x)` afterwards is not-found. -/
theorem C9_theorem (s : Store) (x : String) (w : Workout)
    (h : s.get_workout x = some w) :
    (replace_workout_id s x x).1 = true ∧
    ((replace_workout_id s x x).2).get_workout x = none := by
  unfold replace_workout_id
  rw [h]
  have h1 : (Store.put s x { w with id := x }).get_workout x =
      some { w with id := x } := by
    simp [Store.put, Store.get_workout]
  simp only [h1, Option.isSome_some, if_true]
  refine ⟨by simp, ?_⟩
  simp [Store.erase, Store.get_workout]

/-- Witness for C9 at a concrete one-record store. -/
theorem C9_witness :
    Store.get_workout c6Store "old-1" = some c6Workout ∧
    ((replace_workout_id c6Store "old-1" "old-1").1 = true ∧
     ((replace_workout_id c6Store "old-1" "old-1").2).get_workout "old-1" = none) :=
  ⟨rfl, C9_theorem c6Store "old-1" c6Workout rfl⟩

/-- C7: in the upload route, (a) a conversion failure ends the flow with no
remote call and no store change; (b) an upload failure ends it after the
upload call only, with no store change; (c) on upload success with a
distinct non-empty new id, the remote calls are exactly upload followed by
delete-of-the-old-id, and the store ends as `replace_workout_id old new` —
for every value of `env.deleteOk`, i.e. whether or not the remote deletion
succeeds, and only in this after-success branch does the swap happen. -/
theorem C7_theorem (store : Store) (wid : String) (w : Workout)
    (hw : store.get_workout wid = some w)
    (conv : Except String GarminWorkout) (env : RemoteEnv) :
    (∀ e, conv = .error e →
      upload_workout_route store wid conv env = (.conversionError e, store, [])) ∧
    (∀ gw, conv = .ok gw → env.uploadResult.success = false →
      upload_workout_route store wid conv env =
        (.uploadFailed env.uploadResult.error, store, [.uploadCall])) ∧
    (∀ gw nid, conv = .ok gw → env.uploadResult.success = true →
      env.uploadResult.workout_id = some nid →
      wid ≠ "" → nid ≠ "" → wid ≠ nid →
      upload_workout_route store wid conv env =
        (.ok env.uploadResult, (replace_workout_id store wid nid).2,
          [.uploadCall, .deleteOldCall wid])) := by
  refine ⟨?_, ?_, ?_⟩
  · intro e he
    subst he
    unfold upload_workout_route
    rw [hw]
  · intro gw hgw hfail
    subst hgw
    unfold upload_workout_route
    rw [hw]
    simp only [hfail, if_true]
  · intro gw nid hgw hsucc hnid hw1 hn1 hneq
    subst hgw
    unfold upload_workout_route
    rw [hw]
    simp only [hsucc, hnid]
    rw [if_neg (by simp), if_pos ⟨hw1, hn1, hneq⟩]

/-- Witness for C7: the success branch at a concrete store, conversion
result and remote environment whose old-record deletion fails. -/
theorem C7_witness :
    Store.get_workout c6Store "old-1" = some c6Workout ∧
    upload_workout_route c6Store "old-1" (.ok (workout_to_garmin_dict c6Workout))
        ⟨⟨true, some "new-2", none⟩, false⟩ =
      (.ok ⟨true, some "new-2", none⟩,
        (replace_workout_id c6Store "old-1" "new-2").2,
        [.uploadCall, .deleteOldCall "old-1"]) :=
  ⟨rfl,
   (C7_theorem c6Store "old-1" c6Workout rfl
       (.ok (workout_to_garmin_dict c6Workout))
       ⟨⟨true, some "new-2", none⟩, false⟩).2.2
     (workout_to_garmin_dict c6Workout) "new-2" rfl rfl rfl
     (by decide) (by decide) (by decide)⟩

/-- Characterization of a successful leaf conversion: the produced step's
fields in terms of the wire fields — stroke and step type through the
range-normalization and the `IntEnum` table, distance and duration through
the condition-key dispatch with `int()` truncation, zone, id and
description passed through. -/
theorem convertGarminLeaf_ok
    (step_type_id : Int) (strokeTypeId : Option Int) (condKey : Option String)
    (val : Option ℚ) (zone : Option Int) (descr : Option String)
    (sid : String) (s : WorkoutStep)
    (h : convertGarminLeaf step_type_id strokeTypeId condKey val zone descr sid = .ok s) :
    strokeOfId (if strokeTypeId.getD 5 < 1 ∨ strokeTypeId.getD 5 > 7 then 5
      else strokeTypeId.getD 5) = some s.stroke ∧
    stepTypeOfId (if step_type_id < 1 ∨ step_type_id > 6 then 3 else step_type_id) =
      some s.step_type ∧
    (s.distance_m : Int) =
      (if condKey.getD "distance" = "distance" then pyInt (val.getD 100) else 0) ∧
    s.duration_seconds =
      (if condKey.getD "distance" = "time" ∨ condKey.getD "distance" = "fixed.rest"
        then some (pyInt (val.getD 100)) else none) ∧
    s.zone = zone ∧ s.id = sid ∧ s.description = descr := by
  simp only [convertGarminLeaf] at h
  generalize hsk : (if strokeTypeId.getD 5 < 1 ∨ strokeTypeId.getD 5 > 7 then (5 : Int)
    else strokeTypeId.getD 5) = sk at h ⊢
  generalize htk : (if step_type_id < 1 ∨ step_type_id > 6 then (3 : Int)
    else step_type_id) = tk at h ⊢
  generalize hdist : (if condKey.getD "distance" = "distance" then pyInt (val.getD 100)
    else (0 : Int)) = dist at h ⊢
  generalize hdur : (if condKey.getD "distance" = "time" ∨
      condKey.getD "distance" = "fixed.rest"
    then some (pyInt (val.getD 100)) else (none : Option Int)) = dur at h ⊢
  split at h
  case h_2 => exact absurd h (by simp)
  case h_1 stroke sty hstroke hsty =>
    split at h
    case isTrue => exact absurd h (by simp)
    case isFalse hnneg =>
      split at h
      case h_1 z =>
        split at h
        case isTrue => exact absurd h (by simp)
        case isFalse =>
          rw [Except.ok.injEq] at h
          subst h
          exact ⟨hstroke, hsty, Int.toNat_of_nonneg (Int.not_lt.mp hnneg),
            rfl, rfl, rfl, rfl⟩
      case h_2 =>
        rw [Except.ok.injEq] at h
        subst h
        exact ⟨hstroke, hsty, Int.toNat_of_nonneg (Int.not_lt.mp hnneg),
          rfl, rfl, rfl, rfl⟩

/-- A successful `.step` result of `convert_garmin_step` comes from the
leaf branch: the (defaulted) step-type code is not the REPEAT code 6, the
counter advanced by one, and the leaf conversion succeeded with the
synthesized id. -/
theorem convertGarminStep_leaf_inv
    (stepTypeId strokeTypeId : Option Int) (condKey : Option String)
    (val : Option ℚ) (iters : Option Int) (children : List GarminStep)
    (zone : Option Int) (descr : Option String)
    (c : Nat) (s : WorkoutStep) (c2 : Nat)
    (hconv : convertGarminStep
        (.mk stepTypeId strokeTypeId condKey val iters children zone descr) c =
      .ok (.step s, c2)) :
    stepTypeId.getD 3 ≠ 6 ∧ c2 = c + 1 ∧
    convertGarminLeaf (stepTypeId.getD 3) strokeTypeId condKey val zone descr
      ("step-" ++ toString (c + 1)) = .ok s := by
  simp only [convertGarminStep] at hconv
  split at hconv
  case isTrue h6 =>
    exfalso
    split at hconv
    · exact absurd hconv (by simp)
    · split at hconv
      · exact absurd hconv (by simp)
      · split at hconv
        · exact absurd hconv (by simp)
        · rw [Except.ok.injEq, Prod.mk.injEq] at hconv
          exact absurd hconv.1 (by simp)
  case isFalse h6 =>
    split at hconv
    · exact absurd hconv (by simp)
    case h_2 s2 hleaf =>
      rw [Except.ok.injEq, Prod.mk.injEq] at hconv
      obtain ⟨hs, hc⟩ := hconv
      rw [WorkoutEntry.step.injEq] at hs
      subst hs
      exact ⟨h6, hc.symm, hleaf⟩

/-- Python `int()` of an integer-valued rational is that integer. -/
theorem pyInt_intCast (i : Int) : pyInt ((i : ℚ)) = i := by
  simp [pyInt]

/-- Python `int()` of a natural-valued rational is that natural. -/
theorem pyInt_natCast (n : Nat) : pyInt ((n : ℚ)) = n := by
  simpa using pyInt_intCast n

/-- C4 (counterexample): a distance-condition wire step whose
`endConditionValue` is 150.9 imports with `distance_m = 150`, while the
nearest integer to 150.9 is 151 — `int()` truncates toward zero, it does
not round to nearest. -/
theorem C4_counterexample :
    convertGarminStep c4WireStep 0 =
      .ok (.step ⟨"step-1", .INTERVAL, .FREESTYLE, 150, none, none, none, {}⟩, 1) ∧
    round q1509 = 151 ∧ (150 : Nat) ≠ 151 := by
  refine ⟨rfl, ?_, by decide⟩
  have h : q1509 = (1509 : ℚ) / 10 := by
    rw [← Rat.num_div_den q1509]
    norm_num [q1509]
  rw [h]
  norm_num [round_eq]

/-- C4 (amended): for every wire leaf step that converts successfully, a
`"distance"` end-condition key populates `distance_m` with the value
truncated toward zero (Python `int()`) and leaves the duration unset; a
`"time"` or `"fixed.rest"` key populates `duration_seconds` with the
truncated value and leaves `distance_m` at 0; any other key leaves
`distance_m` at 0 and the duration unset. -/
theorem C4_theorem
    (stepTypeId strokeTypeId : Option Int) (condKey : Option String)
    (val : Option ℚ) (iters : Option Int) (children : List GarminStep)
    (zone : Option Int) (descr : Option String)
    (c : Nat) (s : WorkoutStep) (c2 : Nat)
    (hconv : convertGarminStep
        (.mk stepTypeId strokeTypeId condKey val iters children zone descr) c =
      .ok (.step s, c2)) :
    (condKey.getD "distance" = "distance" →
      (s.distance_m : Int) = pyInt (val.getD 100) ∧ s.duration_seconds = none) ∧
    ((condKey.getD "distance" = "time" ∨ condKey.getD "distance" = "fixed.rest") →
      s.duration_seconds = some (pyInt (val.getD 100)) ∧ s.distance_m = 0) ∧
    ((condKey.getD "distance" ≠ "distance" ∧ condKey.getD "distance" ≠ "time" ∧
        condKey.getD "distance" ≠ "fixed.rest") →
      s.distance_m = 0 ∧ s.duration_seconds = none) := by
  obtain ⟨-, -, hleaf⟩ :=
    convertGarminStep_leaf_inv stepTypeId strokeTypeId condKey val iters children
      zone descr c s c2 hconv
  obtain ⟨-, -, hdist, hdur, -, -, -⟩ :=
    convertGarminLeaf_ok _ _ _ _ _ _ _ _ hleaf
  refine ⟨?_, ?_, ?_⟩
  · intro hck
    have hn : ¬(condKey.getD "distance" = "time" ∨
        condKey.getD "distance" = "fixed.rest") := by
      rw [hck]; decide
    rw [if_pos hck] at hdist
    rw [if_neg hn] at hdur
    exact ⟨hdist, hdur⟩
  · intro hck
    have hn : condKey.getD "distance" ≠ "distance" := by
      rcases hck with hck | hck <;> rw [hck] <;> decide
    rw [if_neg hn] at hdist
    rw [if_pos hck] at hdur
    exact ⟨hdur, by omega⟩
  · intro ⟨h1, h2, h3⟩
    have hn : ¬(condKey.getD "distance" = "time" ∨
        condKey.getD "distance" = "fixed.rest") := not_or.mpr ⟨h2, h3⟩
    rw [if_neg h1] at hdist
    rw [if_neg hn] at hdur
    exact ⟨by omega, hdur⟩

/-- Witness for C4: the distance branch at the concrete 150.9 wire step. -/
theorem C4_witness :
    convertGarminStep c4WireStep 0 =
      .ok (.step ⟨"step-1", .INTERVAL, .FREESTYLE, 150, none, none, none, {}⟩, 1) ∧
    (((WorkoutStep.mk "step-1" .INTERVAL .FREESTYLE 150 none none none {}).distance_m : Int) =
        pyInt q1509 ∧
      (WorkoutStep.mk "step-1" .INTERVAL .FREESTYLE 150 none none none {}).duration_seconds =
        none) :=
  ⟨rfl,
   (C4_theorem (some 3) (some 5) (some "distance") (some q1509) none [] none none 0
       ⟨"step-1", .INTERVAL, .FREESTYLE, 150, none, none, none, {}⟩ 1 rfl).1 rfl⟩

/-- C5: for every wire leaf step that converts successfully, a stroke code
outside 1–7 yields FREESTYLE and an in-range code is kept; a step-type code
outside 1–6 yields INTERVAL and an in-range code is kept (a leaf is by
definition a step whose defaulted code is not the REPEAT code 6). -/
theorem C5_theorem
    (stepTypeId strokeTypeId : Option Int) (condKey : Option String)
    (val : Option ℚ) (iters : Option Int) (children : List GarminStep)
    (zone : Option Int) (descr : Option String)
    (c : Nat) (s : WorkoutStep) (c2 : Nat)
    (hconv : convertGarminStep
        (.mk stepTypeId strokeTypeId condKey val iters children zone descr) c =
      .ok (.step s, c2)) :
    ((strokeTypeId.getD 5 < 1 ∨ strokeTypeId.getD 5 > 7) →
      s.stroke = .FREESTYLE) ∧
    (1 ≤ strokeTypeId.getD 5 → strokeTypeId.getD 5 ≤ 7 →
      s.stroke.val = strokeTypeId.getD 5) ∧
    ((stepTypeId.getD 3 < 1 ∨ stepTypeId.getD 3 > 6) →
      s.step_type = .INTERVAL) ∧
    (1 ≤ stepTypeId.getD 3 → stepTypeId.getD 3 ≤ 6 →
      s.step_type.val = stepTypeId.getD 3) := by
  obtain ⟨h6, -, hleaf⟩ :=
    convertGarminStep_leaf_inv stepTypeId strokeTypeId condKey val iters children
      zone descr c s c2 hconv
  obtain ⟨hstroke, hsty, -, -, -, -, -⟩ :=
    convertGarminLeaf_ok _ _ _ _ _ _ _ _ hleaf
  refine ⟨?_, ?_, ?_, ?_⟩
  · intro hout
    rw [if_pos hout] at hstroke
    have h5 : strokeOfId 5 = some StrokeType.FREESTYLE := rfl
    rw [h5] at hstroke
    exact (Option.some_inj.mp hstroke).symm
  · intro hlo hhi
    have hin : ¬(strokeTypeId.getD 5 < 1 ∨ strokeTypeId.getD 5 > 7) := by omega
    rw [if_neg hin] at hstroke
    generalize hgk : strokeTypeId.getD 5 = k at hlo hhi hstroke ⊢
    interval_cases k <;>
      · simp only [strokeOfId, Option.some.injEq] at hstroke
        rw [← hstroke]
        rfl
  · intro hout
    rw [if_pos hout] at hsty
    have h3 : stepTypeOfId 3 = some StepType.INTERVAL := rfl
    rw [h3] at hsty
    exact (Option.some_inj.mp hsty).symm
  · intro hlo hhi
    have hin : ¬(stepTypeId.getD 3 < 1 ∨ stepTypeId.getD 3 > 6) := by omega
    rw [if_neg hin] at hsty
    generalize hgk : stepTypeId.getD 3 = k at h6 hlo hhi hsty ⊢
    interval_cases k <;>
      first
      | exact absurd rfl h6
      | (simp only [stepTypeOfId, Option.some.injEq] at hsty
         rw [← hsty]
         rfl)

/-- Witness for C5: stroke code 0 and step-type code 9 convert to
FREESTYLE and INTERVAL on a concrete wire step. -/
theorem C5_witness :
    convertGarminStep c5WireStep 0 =
      .ok (.step ⟨"step-1", .INTERVAL, .FREESTYLE, 100, none, none, none, {}⟩, 1) ∧
    (WorkoutStep.mk "step-1" .INTERVAL .FREESTYLE 100 none none none {}).stroke =
      .FREESTYLE ∧
    (WorkoutStep.mk "step-1" .INTERVAL .FREESTYLE 100 none none none {}).step_type =
      .INTERVAL :=
  ⟨rfl,
   (C5_theorem (some 9) (some 0) (some "distance") (some ((100 : Nat) : ℚ)) none []
       none none 0 ⟨"step-1", .INTERVAL, .FREESTYLE, 100, none, none, none, {}⟩ 1
       rfl).1 (by decide),
   (C5_theorem (some 9) (some 0) (some "distance") (some ((100 : Nat) : ℚ)) none []
       none none 0 ⟨"step-1", .INTERVAL, .FREESTYLE, 100, none, none, none, {}⟩ 1
       rfl).2.2.1 (by decide)⟩

/-- C10: for every wire leaf step with no `endConditionValue` key that
converts successfully, the default value 100 is used: a missing or
`"distance"` condition key imports with `distance_m = 100` and no duration,
and a `"time"` or `"fixed.rest"` key imports with `duration_seconds = 100`
and `distance_m = 0`; a missing `endCondition` object behaves as a distance
condition. -/
theorem C10_theorem
    (stepTypeId strokeTypeId : Option Int) (condKey : Option String)
    (iters : Option Int) (children : List GarminStep)
    (zone : Option Int) (descr : Option String)
    (c : Nat) (s : WorkoutStep) (c2 : Nat)
    (hconv : convertGarminStep
        (.mk stepTypeId strokeTypeId condKey none iters children zone descr) c =
      .ok (.step s, c2)) :
    ((condKey = none ∨ condKey = some "distance") →
      s.distance_m = 100 ∧ s.duration_seconds = none) ∧
    ((condKey = some "time" ∨ condKey = some "fixed.rest") →
      s.duration_seconds = some 100 ∧ s.distance_m = 0) := by
  obtain ⟨-, -, hleaf⟩ :=
    convertGarminStep_leaf_inv stepTypeId strokeTypeId condKey none iters children
      zone descr c s c2 hconv
  obtain ⟨-, -, hdist, hdur, -, -, -⟩ :=
    convertGarminLeaf_ok _ _ _ _ _ _ _ _ hleaf
  have h100 : pyInt ((none : Option ℚ).getD 100) = 100 := rfl
  constructor
  · intro hck
    have hceq : condKey.getD "distance" = "distance" := by
      rcases hck with hck | hck <;> rw [hck] <;> rfl
    have hn : ¬(condKey.getD "distance" = "time" ∨
        condKey.getD "distance" = "fixed.rest") := by
      rw [hceq]; decide
    rw [if_pos hceq, h100] at hdist
    rw [if_neg hn] at hdur
    exact ⟨by omega, hdur⟩
  · intro hck
    have hceq : condKey.getD "distance" = "time" ∨
        condKey.getD "distance" = "fixed.rest" := by
      rcases hck with hck | hck <;> rw [hck]
      · exact Or.inl rfl
      · exact Or.inr rfl
    have hn : condKey.getD "distance" ≠ "distance" := by
      rcases hceq with h | h <;> rw [h] <;> decide
    rw [if_neg hn] at hdist
    rw [if_pos hceq, h100] at hdur
    exact ⟨hdur, by omega⟩

/-- Witness for C10: a `time`-condition wire step with no value key
imports with a 100-second duration and zero distance. -/
theorem C10_witness :
    convertGarminStep c10WireStep 0 =
      .ok (.step ⟨"step-1", .INTERVAL, .FREESTYLE, 0, some 100, none, none, {}⟩, 1) ∧
    (WorkoutStep.mk "step-1" .INTERVAL .FREESTYLE 0 (some 100) none none {}).duration_seconds =
      some 100 ∧
    (WorkoutStep.mk "step-1" .INTERVAL .FREESTYLE 0 (some 100) none none {}).distance_m = 0 :=
  ⟨rfl,
   (C10_theorem (some 3) (some 5) (some "time") none [] none none 0
       ⟨"step-1", .INTERVAL, .FREESTYLE, 0, some 100, none, none, {}⟩ 1 rfl).2
     (Or.inl rfl)⟩

/-- `add_step` appends exactly the wire step `emitLeaf` describes. -/
theorem add_step_steps (b : SwimWorkoutBuilder) (s : WorkoutStep) :
    (add_step b s).steps = b.steps ++ [emitLeaf s] := by
  rcases s with ⟨sid, st, stroke, d, dur, zone, dsc, eq⟩
  cases st <;>
    simp [add_step, emitLeaf, SwimWorkoutBuilder.warmup, SwimWorkoutBuilder.cooldown,
      SwimWorkoutBuilder.rest, SwimWorkoutBuilder.swim]

/-- `add_step` never touches the builder's name. -/
theorem add_step_name (b : SwimWorkoutBuilder) (s : WorkoutStep) :
    (add_step b s).name = b.name := by
  rcases s with ⟨sid, st, stroke, d, dur, zone, dsc, eq⟩
  cases st <;>
    simp [add_step, SwimWorkoutBuilder.warmup, SwimWorkoutBuilder.cooldown,
      SwimWorkoutBuilder.rest, SwimWorkoutBuilder.swim]

/-- `add_step` never touches the builder's pool length. -/
theorem add_step_pool (b : SwimWorkoutBuilder) (s : WorkoutStep) :
    (add_step b s).pool_length = b.pool_length := by
  rcases s with ⟨sid, st, stroke, d, dur, zone, dsc, eq⟩
  cases st <;>
    simp [add_step, SwimWorkoutBuilder.warmup, SwimWorkoutBuilder.cooldown,
      SwimWorkoutBuilder.rest, SwimWorkoutBuilder.swim]

/-- Folding `add_step` over leaf steps appends their emitted wire steps. -/
theorem foldl_add_step_steps (l : List WorkoutStep) (b : SwimWorkoutBuilder) :
    (l.foldl add_step b).steps = b.steps ++ l.map emitLeaf := by
  induction l generalizing b with
  | nil => simp
  | cons s tl ih =>
    rw [List.foldl_cons, ih, add_step_steps]
    simp

/-- The `workout_to_garmin_dict` top-level loop appends, per entry, the
wire step `emitEntry` describes. -/
theorem foldl_entries_steps (l : List WorkoutEntry) (b : SwimWorkoutBuilder) :
    (l.foldl
      (fun b e =>
        match e with
        | .group g => b.repeat g.iterations (fun inner => g.steps.foldl add_step inner)
        | .step s => add_step b s)
      b).steps = b.steps ++ l.map emitEntry := by
  induction l generalizing b with
  | nil => simp
  | cons e tl ih =>
    cases e with
    | step s =>
      rw [List.foldl_cons]
      simp only []
      rw [ih, add_step_steps]
      simp [emitEntry]
    | group g =>
      rw [List.foldl_cons]
      simp only []
      rw [ih]
      simp [SwimWorkoutBuilder.repeat, SwimWorkoutBuilder.init,
        foldl_add_step_steps, emitEntry]

/-- The top-level loop preserves the builder's name and pool length. -/
theorem foldl_entries_name_pool (l : List WorkoutEntry) (b : SwimWorkoutBuilder) :
    (l.foldl
      (fun b e =>
        match e with
        | .group g => b.repeat g.iterations (fun inner => g.steps.foldl add_step inner)
        | .step s => add_step b s)
      b).name = b.name ∧
    (l.foldl
      (fun b e =>
        match e with
        | .group g => b.repeat g.iterations (fun inner => g.steps.foldl add_step inner)
        | .step s => add_step b s)
      b).pool_length = b.pool_length := by
  induction l generalizing b with
  | nil => exact ⟨rfl, rfl⟩
  | cons e tl ih =>
    cases e with
    | step s =>
      rw [List.foldl_cons]
      simp only []
      refine ⟨?_, ?_⟩
      · rw [(ih (add_step b s)).1, add_step_name]
      · rw [(ih (add_step b s)).2, add_step_pool]
    | group g =>
      rw [List.foldl_cons]
      simp only []
      refine ⟨?_, ?_⟩
      · rw [(ih _).1]
        simp [SwimWorkoutBuilder.repeat]
      · rw [(ih _).2]
        simp [SwimWorkoutBuilder.repeat]

/-- The fields of the wire object `workout_to_garmin_dict` builds: no
remote id, the 80-truncated name, the pool length, and one segment holding
the per-entry emitted steps. -/
theorem workout_to_garmin_dict_parts (w : Workout) :
    (workout_to_garmin_dict w).workoutId = none ∧
    (workout_to_garmin_dict w).workoutName = some (w.name.take 80) ∧
    (workout_to_garmin_dict w).poolLength = some w.pool_length ∧
    (workout_to_garmin_dict w).workoutSegments = [⟨w.steps.map emitEntry⟩] := by
  unfold workout_to_garmin_dict
  refine ⟨rfl, ?_, ?_, ?_⟩
  · simp only [SwimWorkoutBuilder.build, (foldl_entries_name_pool w.steps _).1,
      SwimWorkoutBuilder.init]
  · simp only [SwimWorkoutBuilder.build, (foldl_entries_name_pool w.steps _).2,
      SwimWorkoutBuilder.init]
  · simp only [SwimWorkoutBuilder.build, foldl_entries_steps,
      SwimWorkoutBuilder.init, List.nil_append]

/-- The `IntEnum` table inverts `StrokeType.val`. -/
theorem strokeOfId_val (st : StrokeType) : strokeOfId st.val = some st := by
  cases st <;> rfl

/-- A valid stroke code is inside 1–7, so the normalization keeps it. -/
theorem stroke_norm_id (st : StrokeType) :
    (if st.val < 1 ∨ st.val > 7 then (5 : Int) else st.val) = st.val := by
  cases st <;> decide

/-- `leavesOnly` accepts a list of leaf entries and strips the tags. -/
theorem leavesOnly_map_step (ss : List WorkoutStep) :
    leavesOnly (ss.map WorkoutEntry.step) = some ss := by
  induction ss with
  | nil => rfl
  | cons s tl ih => simp [leavesOnly, ih]

/-- Converting the wire step emitted for a leaf domain step succeeds
(given the pydantic zone invariant) and produces a leaf whose shape is the
round-trip shape: kind kept for WARMUP/COOLDOWN/REST, everything else
imported as INTERVAL; stroke and distance kept except for REST, which
comes back FREESTYLE with distance 0 and duration `duration_seconds or 30`. -/
theorem convert_emitLeaf (s : WorkoutStep) (hz : s.zoneOk = true) (c : Nat) :
    ∃ s2 : WorkoutStep, convertGarminStep (emitLeaf s) c = .ok (.step s2, c + 1) ∧
      s2.shape = roundtripLeafShape s := by
  rcases s with ⟨sid, st, stroke, d, dur, zone, dsc, eq⟩
  cases st
  case WARMUP =>
    refine ⟨⟨"step-" ++ toString (c + 1), .WARMUP, stroke, d, none, none,
      descWithEquipment ⟨sid, .WARMUP, stroke, d, dur, zone, dsc, eq⟩, {}⟩, ?_, rfl⟩
    simp [emitLeaf, convertGarminStep, convertGarminLeaf, stepTypeOfId,
      stroke_norm_id, strokeOfId_val, pyInt_natCast, Int.toNat_natCast,
      if_neg (show ¬((d : Int) < 0) by omega)]
  case COOLDOWN =>
    refine ⟨⟨"step-" ++ toString (c + 1), .COOLDOWN, stroke, d, none, none,
      descWithEquipment ⟨sid, .COOLDOWN, stroke, d, dur, zone, dsc, eq⟩, {}⟩, ?_, rfl⟩
    simp [emitLeaf, convertGarminStep, convertGarminLeaf, stepTypeOfId,
      stroke_norm_id, strokeOfId_val, pyInt_natCast, Int.toNat_natCast,
      if_neg (show ¬((d : Int) < 0) by omega)]
  case REST =>
    refine ⟨⟨"step-" ++ toString (c + 1), .REST, .FREESTYLE, 0,
      some (durationOr30 dur), none,
      descWithEquipment ⟨sid, .REST, stroke, d, dur, zone, dsc, eq⟩, {}⟩, ?_, rfl⟩
    simp [emitLeaf, convertGarminStep, convertGarminLeaf, stepTypeOfId,
      strokeOfId, pyInt_intCast]
  case INTERVAL =>
    rcases hzz : zone with - | z
    · refine ⟨⟨"step-" ++ toString (c + 1), .INTERVAL, stroke, d, none, none,
        descWithEquipment ⟨sid, .INTERVAL, stroke, d, dur, none, dsc, eq⟩, {}⟩, ?_, rfl⟩
      simp [emitLeaf, convertGarminStep, convertGarminLeaf, stepTypeOfId,
        stroke_norm_id, strokeOfId_val, pyInt_natCast, Int.toNat_natCast,
        if_neg (show ¬((d : Int) < 0) by omega)]
    · have hb : 1 ≤ z ∧ z ≤ 5 := by
        simpa [WorkoutStep.zoneOk, hzz] using hz
      refine ⟨⟨"step-" ++ toString (c + 1), .INTERVAL, stroke, d, none, some z,
        descWithEquipment ⟨sid, .INTERVAL, stroke, d, dur, some z, dsc, eq⟩, {}⟩, ?_, rfl⟩
      simp [emitLeaf, convertGarminStep, convertGarminLeaf, stepTypeOfId,
        stroke_norm_id, strokeOfId_val, pyInt_natCast, Int.toNat_natCast,
        if_neg (show ¬((d : Int) < 0) by omega),
        if_pos (show z ≠ 0 by omega),
        if_neg (show ¬(z < 1 ∨ z > 5) by omega)]
  case RECOVERY =>
    rcases hzz : zone with - | z
    · refine ⟨⟨"step-" ++ toString (c + 1), .INTERVAL, stroke, d, none, none,
        descWithEquipment ⟨sid, .RECOVERY, stroke, d, dur, none, dsc, eq⟩, {}⟩, ?_, rfl⟩
      simp [emitLeaf, convertGarminStep, convertGarminLeaf, stepTypeOfId,
        stroke_norm_id, strokeOfId_val, pyInt_natCast, Int.toNat_natCast,
        if_neg (show ¬((d : Int) < 0) by omega)]
    · have hb : 1 ≤ z ∧ z ≤ 5 := by
        simpa [WorkoutStep.zoneOk, hzz] using hz
      refine ⟨⟨"step-" ++ toString (c + 1), .INTERVAL, stroke, d, none, some z,
        descWithEquipment ⟨sid, .RECOVERY, stroke, d, dur, some z, dsc, eq⟩, {}⟩, ?_, rfl⟩
      simp [emitLeaf, convertGarminStep, convertGarminLeaf, stepTypeOfId,
        stroke_norm_id, strokeOfId_val, pyInt_natCast, Int.toNat_natCast,
        if_neg (show ¬((d : Int) < 0) by omega),
        if_pos (show z ≠ 0 by omega),
        if_neg (show ¬(z < 1 ∨ z > 5) by omega)]
  case REPEAT =>
    rcases hzz : zone with - | z
    · refine ⟨⟨"step-" ++ toString (c + 1), .INTERVAL, stroke, d, none, none,
        descWithEquipment ⟨sid, .REPEAT, stroke, d, dur, none, dsc, eq⟩, {}⟩, ?_, rfl⟩
      simp [emitLeaf, convertGarminStep, convertGarminLeaf, stepTypeOfId,
        stroke_norm_id, strokeOfId_val, pyInt_natCast, Int.toNat_natCast,
        if_neg (show ¬((d : Int) < 0) by omega)]
    · have hb : 1 ≤ z ∧ z ≤ 5 := by
        simpa [WorkoutStep.zoneOk, hzz] using hz
      refine ⟨⟨"step-" ++ toString (c + 1), .INTERVAL, stroke, d, none, some z,
        descWithEquipment ⟨sid, .REPEAT, stroke, d, dur, some z, dsc, eq⟩, {}⟩, ?_, rfl⟩
      simp [emitLeaf, convertGarminStep, convertGarminLeaf, stepTypeOfId,
        stroke_norm_id, strokeOfId_val, pyInt_natCast, Int.toNat_natCast,
        if_neg (show ¬((d : Int) < 0) by omega),
        if_pos (show z ≠ 0 by omega),
        if_neg (show ¬(z < 1 ∨ z > 5) by omega)]

/-- Converting a list of emitted leaf wire steps succeeds, advances the
counter by the length, yields leaf entries only, and transforms shapes
pointwise. -/
theorem convert_emitLeaf_list (ls : List WorkoutStep)
    (hz : ls.all WorkoutStep.zoneOk = true) (c : Nat) :
    ∃ ss : List WorkoutStep,
      convertGarminSteps (ls.map emitLeaf) c = .ok (ss.map WorkoutEntry.step, c + ls.length) ∧
      ss.map WorkoutStep.shape = ls.map roundtripLeafShape := by
  induction ls generalizing c with
  | nil => exact ⟨[], rfl, rfl⟩
  | cons s tl ih =>
    rw [List.all_cons, Bool.and_eq_true] at hz
    obtain ⟨s2, hs2, hshape⟩ := convert_emitLeaf s hz.1 c
    obtain ⟨ss, hss, hsshape⟩ := ih hz.2 (c + 1)
    refine ⟨s2 :: ss, ?_, ?_⟩
    · simp only [List.map_cons, convertGarminSteps, hs2, hss, List.length_cons]
      congr 2
      omega
    · simp [hshape, hsshape]

/-- Converting the wire step emitted for any well-formed entry succeeds
and transforms its shape by `roundtripEntryShape`. -/
theorem convert_emitEntry (e : WorkoutEntry) (he : e.wf = true) (c : Nat) :
    ∃ e2 c2, convertGarminStep (emitEntry e) c = .ok (e2, c2) ∧
      e2.shape = roundtripEntryShape e := by
  cases e with
  | step s =>
    obtain ⟨s2, hs2, hshape⟩ := convert_emitLeaf s he c
    exact ⟨.step s2, c + 1, by rw [emitEntry]; exact hs2,
      by simp [WorkoutEntry.shape, roundtripEntryShape, hshape]⟩
  | group g =>
    rw [WorkoutEntry.wf, Bool.and_eq_true, decide_eq_true_eq] at he
    obtain ⟨ss, hss, hsshape⟩ := convert_emitLeaf_list g.steps he.2 (c + 1)
    refine ⟨.group ⟨"step-" ++ toString (c + 1), .REPEAT, g.iterations, ss⟩,
      c + 1 + g.steps.length, ?_, ?_⟩
    · simp [emitEntry, convertGarminStep, Option.getD_some, hss,
        leavesOnly_map_step, if_neg (show ¬((g.iterations : Int) < 1) by omega),
        Int.toNat_natCast]
      omega
    · simp [WorkoutEntry.shape, roundtripEntryShape, hsshape]

/-- Converting the emitted wire steps of a well-formed entry list succeeds
and transforms all shapes pointwise. -/
theorem convert_emitEntry_list (l : List WorkoutEntry)
    (hwf : l.all WorkoutEntry.wf = true) (c : Nat) :
    ∃ (es : List WorkoutEntry) (c2 : Nat),
      convertGarminSteps (l.map emitEntry) c = .ok (es, c2) ∧
      es.map WorkoutEntry.shape = l.map roundtripEntryShape := by
  induction l generalizing c with
  | nil => exact ⟨[], c, rfl, rfl⟩
  | cons e tl ih =>
    rw [List.all_cons, Bool.and_eq_true] at hwf
    obtain ⟨e2, c1, he2, hshape⟩ := convert_emitEntry e hwf.1 c
    obtain ⟨es, c2, hes, hsshape⟩ := ih hwf.2 c1
    refine ⟨e2 :: es, c2, ?_, ?_⟩
    · simp only [List.map_cons, convertGarminSteps, he2, hes]
    · simp [hshape, hsshape]

set_option maxRecDepth 8000

/-- C2 (counterexample): the round trip does not preserve every non-REST
kind — a RECOVERY step (kind 4) comes back as INTERVAL (kind 3), an
alteration not among the claim's allowed losses (equipment flags,
out-of-range codes, step ids). -/
theorem C2_counterexample :
    garmin_to_workout (workout_to_garmin_dict c2Recovery) =
      .ok ⟨"", "Recover", 25,
        [.step ⟨"step-1", .INTERVAL, .BACKSTROKE, 100, none, none, none, {}⟩]⟩ ∧
    c2Recovery.steps =
      [.step ⟨"s1", .RECOVERY, .BACKSTROKE, 100, none, none, none, {}⟩] ∧
    StepType.RECOVERY ≠ StepType.INTERVAL :=
  ⟨rfl, rfl, by decide⟩

/-- C2 (amended): for every workout satisfying the pydantic invariants
(zone in 1–5 when present, iterations ≥ 1), the wire round trip succeeds
and transforms each step's (kind, stroke, distance, duration) shape by
`roundtripLeafShape` and each group by `roundtripEntryShape`: WARMUP,
COOLDOWN and INTERVAL keep kind, stroke and distance; RECOVERY (and a leaf
carrying the REPEAT code) comes back as INTERVAL with stroke and distance
kept; REST keeps its kind and duration, except that a missing or zero
duration becomes 30, and loses stroke (to FREESTYLE) and stored distance
(to 0); RepeatGroup iteration counts and the one-level nesting structure
are preserved; equipment flags, descriptions, workout id and step ids may
be lost or altered. -/
theorem C2_theorem (w : Workout) (h : w.wellFormed = true) :
    ∃ w2 : Workout, garmin_to_workout (workout_to_garmin_dict w) = .ok w2 ∧
      w2.shape = w.steps.map roundtripEntryShape := by
  obtain ⟨hid, hname, hpool, hseg⟩ := workout_to_garmin_dict_parts w
  obtain ⟨es, c2, hconv, hshape⟩ := convert_emitEntry_list w.steps h 0
  refine ⟨⟨"", w.name.take 80, w.pool_length, es⟩, ?_, ?_⟩
  · simp only [garmin_to_workout, hid, hname, hpool, hseg, hconv,
      Option.getD_some, Option.getD_none]
  · simpa [Workout.shape] using hshape

/-- Witness for C2 at a concrete well-formed workout with a warmup and a
repeat group holding an interval and a rest. -/
theorem C2_witness :
    c2Sample.wellFormed = true ∧
    (∃ w2 : Workout, garmin_to_workout (workout_to_garmin_dict c2Sample) = .ok w2 ∧
      w2.shape = c2Sample.steps.map roundtripEntryShape) :=
  ⟨rfl, C2_theorem c2Sample rfl⟩
